import Mathlib

/-!
# Verification of the homework status bot (`homework.py`, `exceptions.py`)

A shallow embedding of the bot's poll loop and its helper functions.
Python values are modelled by `PyVal`; exceptions by `HwError` together
with `Except`; the HTTP and Telegram environments are explicit inputs
(`PyVal → HttpResult` and `String → SendOutcome`).
-/

/-- Model of a Python value as it appears in decoded JSON bodies and
homework records: ints, strings, booleans, lists, string-keyed dicts
and `None`. Dicts are association lists; lookup takes the first match,
which agrees with Python dicts (no duplicate keys can arise there). -/
inductive PyVal where
  | int : Int → PyVal
  | str : String → PyVal
  | bool : Bool → PyVal
  | list : List PyVal → PyVal
  | dict : List (String × PyVal) → PyVal
  | pynone : PyVal

/-- First-match association-list lookup, the model of `d[k]` / `k in d`
for string-keyed dicts. -/
def assocGet {α : Type} : List (String × α) → String → Option α
  | [], _ => none
  | (k2, v) :: rest, k => if k2 = k then some v else assocGet rest k

/-- `True` exactly on `PyVal.dict` values: the model of
`isinstance(x, dict)` / `type(x) is dict`. -/
def isDict : PyVal → Bool
  | PyVal.dict _ => true
  | _ => false

/-- Python's `str(type(x))` for the modelled value constructors, used in
the `TypeError` messages of `check_response` and `parse_status`. -/
def pyTypeName : PyVal → String
  | PyVal.int _ => "<class \x27int\x27>"
  | PyVal.str _ => "<class \x27str\x27>"
  | PyVal.bool _ => "<class \x27bool\x27>"
  | PyVal.list _ => "<class \x27list\x27>"
  | PyVal.dict _ => "<class \x27dict\x27>"
  | PyVal.pynone => "<class \x27NoneType\x27>"

/-- Python's `str(x)` as used inside the f-strings of `parse_status`.
The claims only ever format ints and strings; the rendering of composite
values is abbreviated because no message in the program depends on it. -/
def pyStr : PyVal → String
  | PyVal.int n => toString n
  | PyVal.str s => s
  | PyVal.bool b => if b then "True" else "False"
  | PyVal.list _ => "[...]"
  | PyVal.dict _ => "\x7b...\x7d"
  | PyVal.pynone => "None"

/-- Python truthiness (`if x:`) for the modelled values. -/
def pyTruthy : PyVal → Bool
  | PyVal.int n => n ≠ 0
  | PyVal.str s => s ≠ ""
  | PyVal.bool b => b
  | PyVal.list l => !l.isEmpty
  | PyVal.dict d => !d.isEmpty
  | PyVal.pynone => false

/-- The exception kinds raised inside a poll cycle: the four classes of
`exceptions.py` that `homework.py` imports, Python's built-in `TypeError`,
`KeyError` and `IndexError`, and `telegram.TelegramError` raised by the
bot's delivery call. Each carries its message string. -/
inductive HwError where
  | requestError : String → HwError
  | wrongStatusCodeError : String → HwError
  | wrongResponseError : String → HwError
  | unexpectedStatusError : String → HwError
  | typeError : String → HwError
  | keyError : String → HwError
  | indexError : String → HwError
  | telegramError : String → HwError
deriving DecidableEq

/-- Python's `str(error)` for a caught exception: `KeyError` renders its
message argument quoted, the other classes render it verbatim. -/
def errText : HwError → String
  | HwError.requestError m => m
  | HwError.wrongStatusCodeError m => m
  | HwError.wrongResponseError m => m
  | HwError.unexpectedStatusError m => m
  | HwError.typeError m => m
  | HwError.keyError m => "\x27" ++ m ++ "\x27"
  | HwError.indexError m => m
  | HwError.telegramError m => m

/-- `d[k]` on an arbitrary value: `KeyError` on a dict missing the key,
`TypeError` when the value is not a dict. -/
def pyGetItem (v : PyVal) (k : String) : Except HwError PyVal :=
  match v with
  | PyVal.dict entries =>
      match assocGet entries k with
      | some value => Except.ok value
      | none => Except.error (HwError.keyError k)
  | other =>
      Except.error (HwError.typeError (pyTypeName other ++ " object is not subscriptable"))

/-- `xs[0]` on an arbitrary value. -/
def pyIndexZero (v : PyVal) : Except HwError PyVal :=
  match v with
  | PyVal.list (x :: _) => Except.ok x
  | PyVal.list [] => Except.error (HwError.indexError "list index out of range")
  | PyVal.str s =>
      if s.isEmpty then Except.error (HwError.indexError "string index out of range")
      else Except.ok (PyVal.str (s.take 1))
  | other =>
      Except.error (HwError.typeError (pyTypeName other ++ " object is not subscriptable"))

/-- `HOMEWORK_VERDICTS` of `homework.py`. -/
def HOMEWORK_VERDICTS : List (String × String) :=
  [("approved", "Работа проверена: ревьюеру всё понравилось. Ура!"),
   ("reviewing", "Работа взята на проверку ревьюером."),
   ("rejected", "Работа проверена: у ревьюера есть замечания.")]

/-- `ENDPOINT` of `homework.py`. -/
def ENDPOINT : String := "https://practicum.yandex.ru/api/user_api/homework_statuses/"

/-- `RETRY_PERIOD` of `homework.py`: seconds slept between poll cycles. -/
def RETRY_PERIOD : Nat := 600

/-- `x in HOMEWORK_VERDICTS` followed by `HOMEWORK_VERDICTS[x]`: the
verdict string when the status value is a string key of the table, and
`none` for every other value (non-string values are not keys). -/
def verdictGet (v : PyVal) : Option String :=
  match v with
  | PyVal.str s => assocGet HOMEWORK_VERDICTS s
  | _ => none

/-- `check_response` of `homework.py`: checks the decoded API body.
`TypeError` if it is not a dict; `KeyError` if `homeworks` or
`current_date` is missing; `TypeError` if the `homeworks` value is not a
list; otherwise returns `()` (the function only logs on success). -/
def check_response (response : PyVal) : Except HwError Unit :=
  match response with
  | PyVal.dict entries =>
      match assocGet entries "homeworks" with
      | none =>
          Except.error (HwError.keyError
            ("В ответе API отсутствует ожидаемый ключ:" ++ "\x22homeworks\x22."))
      | some homeworksVal =>
          match assocGet entries "current_date" with
          | none =>
              Except.error (HwError.keyError
                ("В ответе API отсутствует ожидаемый ключ:" ++ "\x22current_date\x22."))
          | some _ =>
              match homeworksVal with
              | PyVal.list _ => Except.ok ()
              | other =>
                  Except.error (HwError.typeError
                    ("Тип полученных данных: " ++ pyTypeName other ++ ". "
                      ++ "Ожидаемый тип данных: list."))
  | other =>
      Except.error (HwError.typeError
        ("Тип полученных данных: " ++ pyTypeName other ++ ". "
          ++ "Ожидаемый тип данных: dict."))

/-- `parse_status` of `homework.py`: turns one homework record into the
notification text. `TypeError` if the record is not a dict; `KeyError`
if `homework_name` or `status` is missing; `UnexpectedStatusError` if
the status is not a key of `HOMEWORK_VERDICTS`; otherwise the formatted
sentence. -/
def parse_status (homework : PyVal) : Except HwError String :=
  match homework with
  | PyVal.dict entries =>
      match assocGet entries "homework_name" with
      | none =>
          Except.error (HwError.keyError
            ("В ответе API отсутствуют ожидаемые ключи:" ++ "\x22homework_name\x22."))
      | some nameVal =>
          match assocGet entries "status" with
          | none =>
              Except.error (HwError.keyError
                ("В ответе API отсутствуют ожидаемые ключи:" ++ "\x22status\x22."))
          | some statusVal =>
              match verdictGet statusVal with
              | none =>
                  Except.error (HwError.unexpectedStatusError
                    ("Получен неожиданный статус домашней работы: "
                      ++ pyStr statusVal ++ "."))
              | some verdict =>
                  Except.ok ("Изменился статус проверки работы \x22"
                    ++ pyStr nameVal ++ "\x22. " ++ verdict)
  | other =>
      Except.error (HwError.typeError
        ("Получен неправильный тип для homework: " ++ pyTypeName other ++ " "
          ++ "Ожидаемый тип данных: dict."))

/-- The outcome of `requests.get(ENDPOINT, headers=HEADERS, params=payload)`
for one request: either `requests.RequestException` was raised (with its
message), or an HTTP response object came back. -/
structure HttpResponse where
  status_code : Nat
  /-- Result of `response.json()`: the decoded body, or the decoding
  exception's message. -/
  jsonResult : Except String PyVal
  /-- `response.text`, quoted in the malformed-body error message. -/
  text : String

/-- `requests.get` either raises (`exn`) or returns a response. -/
inductive HttpResult where
  | exn : String → HttpResult
  | resp : HttpResponse → HttpResult

/-- `get_api_answer` of `homework.py`. The HTTP layer is an explicit
environment `http` mapping the `from_date` payload value (the watermark
timestamp) to the outcome of the GET request. `RequestError` when the
request raises; `WrongStatusCodeError` when the status is not 200;
`WrongResponseError` when `response.json()` raises; otherwise the decoded
body, unvalidated. -/
def get_api_answer (http : PyVal → HttpResult) (timestamp : PyVal) : Except HwError PyVal :=
  match http timestamp with
  | HttpResult.exn error =>
      Except.error (HwError.requestError
        ("Ошибка при отправке запроса: " ++ error ++ "."
          ++ "Адрес ресурса: " ++ ENDPOINT ++ "."
          ++ "Метод запроса: GET."))
  | HttpResult.resp response =>
      if response.status_code ≠ 200 then
        Except.error (HwError.wrongStatusCodeError
          ("Запрос к адресу: " ++ ENDPOINT ++ "."
            ++ "Метод запроса: GET."
            ++ "Статус ответа: " ++ toString response.status_code ++ ". "
            ++ "Ожидаемый код: 200"))
      else
        match response.jsonResult with
        | Except.error error =>
            Except.error (HwError.wrongResponseError
              ("API вернул неверный json! Oтвет: "
                ++ response.text ++ ", ошибка: " ++ error))
        | Except.ok body => Except.ok body

/-- Outcome of one `bot.send_message(TELEGRAM_CHAT_ID, message)` call:
delivered, or `telegram.TelegramError` raised with the given message. -/
inductive SendOutcome where
  | delivered : SendOutcome
  | telegramErr : String → SendOutcome

/-- The raw Telegram delivery call: raises `TelegramError` exactly when
the environment says the attempt fails. -/
def bot_send_message (outcome : SendOutcome) : Except HwError Unit :=
  match outcome with
  | SendOutcome.delivered => Except.ok ()
  | SendOutcome.telegramErr e => Except.error (HwError.telegramError e)

/-- What a `send_message` call did: which texts were handed to
`bot.send_message` (in order), and whether the call itself raised. -/
structure SendResult where
  attempts : List String
  raised : Except HwError Unit

/-- `send_message` of `homework.py`: one delivery attempt inside
`try/except telegram.TelegramError`; a `TelegramError` is logged and
swallowed, anything else would propagate (the delivery call raises
nothing else). -/
def send_message (outcome : SendOutcome) (message : String) : SendResult :=
  match bot_send_message outcome with
  | Except.ok _ => { attempts := [message], raised := Except.ok () }
  | Except.error (HwError.telegramError _) => { attempts := [message], raised := Except.ok () }
  | Except.error e => { attempts := [message], raised := Except.error e }

/-- The three environment variables read at module load. -/
structure Env where
  TELEGRAM_TOKEN : Option String
  PRACTICUM_TOKEN : Option String
  TELEGRAM_CHAT_ID : Option String

/-- The `environment_variables` dict of `check_tokens`, in its insertion
order. -/
def environment_variables (env : Env) : List (String × Option String) :=
  [("TELEGRAM_TOKEN", env.TELEGRAM_TOKEN),
   ("PRACTICUM_TOKEN", env.PRACTICUM_TOKEN),
   ("TELEGRAM_CHAT_ID", env.TELEGRAM_CHAT_ID)]

/-- The loop of `check_tokens` collecting the names whose value is
`None`, preserving iteration order. -/
def collect_missed : List (String × Option String) → List String
  | [] => []
  | (name, val) :: rest =>
      match val with
      | none => name :: collect_missed rest
      | some _ => collect_missed rest

/-- `missed_vars` as computed by `check_tokens`. -/
def missed_vars (env : Env) : List String :=
  collect_missed (environment_variables env)

/-- Python's `repr` of a list of strings, as interpolated into the
critical log line of `check_tokens`. -/
def pyListRepr (xs : List String) : String :=
  "[" ++ String.intercalate ", " (xs.map (fun x => "\x27" ++ x ++ "\x27")) ++ "]"

/-- What `check_tokens` did: the critical log lines it emitted and
whether it called `sys.exit` (with which code). -/
structure CheckTokensOut where
  criticalLog : List String
  exited : Option Nat

/-- `check_tokens` of `homework.py`: logs at debug level and returns when
every variable is present; logs critically and exits with status 1 when
any is missing. -/
def check_tokens (env : Env) : CheckTokensOut :=
  let missed := missed_vars env
  if missed = [] then
    { criticalLog := [], exited := none }
  else
    { criticalLog :=
        ["Не указаны обязательные переменные окружения: " ++ pyListRepr missed
          ++ "!" ++ "Программа принудительно остановлена."],
      exited := some 1 }

/-- How `main` starts: terminated by `check_tokens` before the loop, or
entering the `while True` loop with `timestamp = int(time.time())`. -/
inductive StartupResult where
  | terminated : Nat → List String → StartupResult
  | entersLoop : PyVal → StartupResult

/-- The startup phase of `main` (`check_tokens()`; `timestamp = int(time.time())`;
`bot = telegram.Bot(...)`), with the current clock reading as input. -/
def main_startup (env : Env) (now : Int) : StartupResult :=
  let ct := check_tokens env
  match ct.exited with
  | some code => StartupResult.terminated code ct.criticalLog
  | none => StartupResult.entersLoop (PyVal.int now)

/-- The environment one poll cycle runs against: the HTTP layer and the
Telegram layer (outcome of delivering each message text). -/
structure CycleEnv where
  http : PyVal → HttpResult
  send : String → SendOutcome

/-- What one iteration of the `while True` body did: the watermark when
the iteration reaches `time.sleep(RETRY_PERIOD)`, the texts handed to
`bot.send_message`, and the error caught by the `except` clause, if any. -/
structure CycleResult where
  timestamp : PyVal
  sent : List String
  errorLogged : Option HwError

/-- `f'Сбой в работе программы: {error}'`, the text built in the
`except` clause of `main`. -/
def error_text (e : HwError) : String :=
  "Сбой в работе программы: " ++ errText e

/-- The `except Exception` clause of `main`'s loop: build the failure
text, log it, set `sent_msg = ''` (a fresh local every iteration), and
send the text when it differs from `sent_msg`. The watermark keeps
whatever value it had when the exception was raised. -/
def handle_error (env : CycleEnv) (ts : PyVal) (e : HwError) : CycleResult :=
  let message := error_text e
  let sent_msg := ""
  if message ≠ sent_msg then
    { timestamp := ts,
      sent := (send_message (env.send message) message).attempts,
      errorLogged := some e }
  else
    { timestamp := ts, sent := [], errorLogged := some e }

/-- One iteration of `main`'s `while True` body, up to (and not
including) `time.sleep(RETRY_PERIOD)`. The `try` block runs
`get_api_answer`, `check_response`, the watermark assignment
`timestamp = response['current_date']`, and then formatting and delivery
of the first homework record when the list is non-empty; any raised
error falls to `handle_error`, with the watermark already advanced when
the assignment had executed before the raise. -/
def one_cycle (env : CycleEnv) (timestamp : PyVal) : CycleResult :=
  match get_api_answer env.http timestamp with
  | Except.error e => handle_error env timestamp e
  | Except.ok response =>
      match check_response response with
      | Except.error e => handle_error env timestamp e
      | Except.ok _ =>
          match pyGetItem response "current_date" with
          | Except.error e => handle_error env timestamp e
          | Except.ok newTs =>
              match pyGetItem response "homeworks" with
              | Except.error e => handle_error env newTs e
              | Except.ok homeworks =>
                  if pyTruthy homeworks then
                    match pyIndexZero homeworks with
                    | Except.error e => handle_error env newTs e
                    | Except.ok homework =>
                        match parse_status homework with
                        | Except.error e => handle_error env newTs e
                        | Except.ok message =>
                            match (send_message (env.send message) message).raised with
                            | Except.error e => handle_error env newTs e
                            | Except.ok _ =>
                                { timestamp := newTs,
                                  sent := (send_message (env.send message) message).attempts,
                                  errorLogged := none }
                  else
                    { timestamp := newTs, sent := [], errorLogged := none }

/-- The `try` block of one iteration viewed as the Python interpreter
sees it: the first exception raised by any statement aborts the block
with that exception; on success it yields the new watermark and the
delivered texts. Used to state that every error raised inside a cycle
is the one the `except` clause catches. -/
def cycle_try (env : CycleEnv) (timestamp : PyVal) : Except HwError (PyVal × List String) :=
  match get_api_answer env.http timestamp with
  | Except.error e => Except.error e
  | Except.ok response =>
      match check_response response with
      | Except.error e => Except.error e
      | Except.ok _ =>
          match pyGetItem response "current_date" with
          | Except.error e => Except.error e
          | Except.ok newTs =>
              match pyGetItem response "homeworks" with
              | Except.error e => Except.error e
              | Except.ok homeworks =>
                  if pyTruthy homeworks then
                    match pyIndexZero homeworks with
                    | Except.error e => Except.error e
                    | Except.ok homework =>
                        match parse_status homework with
                        | Except.error e => Except.error e
                        | Except.ok message =>
                            match (send_message (env.send message) message).raised with
                            | Except.error e => Except.error e
                            | Except.ok _ =>
                                Except.ok (newTs, (send_message (env.send message) message).attempts)
                  else
                    Except.ok (newTs, [])

/-- The watermark after `n` poll cycles, the cycle environments given as
a stream: each step runs one iteration body and then sleeps
`RETRY_PERIOD` seconds before the next. -/
def run_loop (envs : Nat → CycleEnv) (ts0 : PyVal) : Nat → PyVal
  | 0 => ts0
  | n + 1 => (one_cycle (envs n) (run_loop envs ts0 n)).timestamp

/-- `True` exactly on `PyVal.list` values: the model of
`isinstance(x, list)`. -/
def isList : PyVal → Bool
  | PyVal.list _ => true
  | _ => false

/-- A homework record whose status is `approved`. -/
def approvedRecord : PyVal :=
  PyVal.dict [("homework_name", PyVal.str "X"), ("status", PyVal.str "approved")]

/-- The response of the success-path scenario of the spec. -/
def approvedResponse : PyVal :=
  PyVal.dict [("homeworks", PyVal.list [approvedRecord]), ("current_date", PyVal.int 123)]

/-- An environment whose API returns `approvedResponse` with status 200
and whose Telegram delivery succeeds. -/
def approvedEnv : CycleEnv :=
  { http := fun _ => HttpResult.resp
      { status_code := 200, jsonResult := Except.ok approvedResponse, text := "" },
    send := fun _ => SendOutcome.delivered }

/-- A homework record whose status is outside the verdict table. -/
def unknownStatusRecord : PyVal :=
  PyVal.dict [("homework_name", PyVal.str "X"), ("status", PyVal.str "unknown")]

/-- A well-formed response whose first record has an unknown status. -/
def unknownStatusResponse : PyVal :=
  PyVal.dict [("homeworks", PyVal.list [unknownStatusRecord]), ("current_date", PyVal.int 123)]

/-- An environment whose API returns `unknownStatusResponse`. -/
def unknownStatusEnv : CycleEnv :=
  { http := fun _ => HttpResult.resp
      { status_code := 200, jsonResult := Except.ok unknownStatusResponse, text := "" },
    send := fun _ => SendOutcome.delivered }

/-- The error `parse_status` raises on `unknownStatusRecord`. -/
def unknownStatusError : HwError :=
  HwError.unexpectedStatusError "Получен неожиданный статус домашней работы: unknown."

/-- An environment whose GET request raises at transport level. -/
def refusedEnv : CycleEnv :=
  { http := fun _ => HttpResult.exn "connection refused",
    send := fun _ => SendOutcome.delivered }

/-- The `RequestError` that `get_api_answer` raises in `refusedEnv`. -/
def refusedError : HwError :=
  HwError.requestError
    ("Ошибка при отправке запроса: connection refused."
      ++ "Адрес ресурса: " ++ ENDPOINT ++ "."
      ++ "Метод запроса: GET.")

/-- A constant stream of transport-failing cycle environments. -/
def refusedStream : Nat → CycleEnv := fun _ => refusedEnv

/-- An HTTP layer answering every request with status 503. -/
def unavailableHttp : PyVal → HttpResult :=
  fun _ => HttpResult.resp
    { status_code := 503, jsonResult := Except.error "Expecting value", text := "Service Unavailable" }

/-- A 503-answering environment with succeeding Telegram delivery. -/
def unavailableEnv : CycleEnv :=
  { http := unavailableHttp, send := fun _ => SendOutcome.delivered }

/-- A well-formed response with an empty homeworks list. -/
def emptyResponse : PyVal :=
  PyVal.dict [("homeworks", PyVal.list []), ("current_date", PyVal.int 777)]

/-- An environment whose API returns `emptyResponse`. -/
def emptyEnv : CycleEnv :=
  { http := fun _ => HttpResult.resp
      { status_code := 200, jsonResult := Except.ok emptyResponse, text := "" },
    send := fun _ => SendOutcome.delivered }

/-- Configuration with the Telegram token missing. -/
def missingTokenEnv : Env :=
  { TELEGRAM_TOKEN := none, PRACTICUM_TOKEN := some "p", TELEGRAM_CHAT_ID := some "c" }

/-- Configuration with all three values present. -/
def fullTokenEnv : Env :=
  { TELEGRAM_TOKEN := some "t", PRACTICUM_TOKEN := some "p", TELEGRAM_CHAT_ID := some "c" }

/-- The failure text of `main`'s `except` clause is never the empty
string: it extends a non-empty literal. -/
theorem error_text_ne_empty (e : HwError) : error_text e ≠ "" := by
  intro h
  unfold error_text at h
  have h2 := congrArg String.length h
  rw [String.length_append] at h2
  simp at h2
  exact absurd h2.1 (by decide)

/-- `send_message` hands its text to the bot exactly once and returns
normally whatever the delivery outcome. -/
theorem send_message_eq (outcome : SendOutcome) (message : String) :
    send_message outcome message = { attempts := [message], raised := Except.ok () } := by
  cases outcome <;> rfl

/-- The `except` clause always attempts one notification of the failure
text (the freshly reset `sent_msg` never equals the non-empty text). -/
theorem handle_error_eq (env : CycleEnv) (ts : PyVal) (e : HwError) :
    handle_error env ts e = { timestamp := ts, sent := [error_text e], errorLogged := some e } := by
  simp only [handle_error]
  rw [if_pos (error_text_ne_empty e)]
  rw [send_message_eq]

/-- Every iteration body either ends in the `except` clause with the
exact error its `try` block raised, or completes the `try` block and
reports no error. -/
theorem one_cycle_cases (env : CycleEnv) (ts : PyVal) :
    (∃ ts2 e, one_cycle env ts = handle_error env ts2 e ∧ cycle_try env ts = Except.error e) ∨
    (∃ newTs msgs, one_cycle env ts = { timestamp := newTs, sent := msgs, errorLogged := none } ∧
      cycle_try env ts = Except.ok (newTs, msgs)) := by
  rcases hga : get_api_answer env.http ts with e1 | response
  · exact Or.inl ⟨ts, e1, by simp only [one_cycle, hga], by simp only [cycle_try, hga]⟩
  · rcases hcr : check_response response with e1 | u
    · exact Or.inl ⟨ts, e1, by simp only [one_cycle, hga, hcr], by simp only [cycle_try, hga, hcr]⟩
    · cases u
      rcases hcd : pyGetItem response "current_date" with e1 | newTs
      · exact Or.inl ⟨ts, e1, by simp only [one_cycle, hga, hcr, hcd],
          by simp only [cycle_try, hga, hcr, hcd]⟩
      · rcases hhw : pyGetItem response "homeworks" with e1 | homeworks
        · exact Or.inl ⟨newTs, e1, by simp only [one_cycle, hga, hcr, hcd, hhw],
            by simp only [cycle_try, hga, hcr, hcd, hhw]⟩
        · rcases htr : pyTruthy homeworks with _ | _
          · exact Or.inr ⟨newTs, [],
              by simp only [one_cycle, hga, hcr, hcd, hhw, htr, if_neg,
                Bool.false_eq_true, not_false_iff],
              by simp only [cycle_try, hga, hcr, hcd, hhw, htr, if_neg,
                Bool.false_eq_true, not_false_iff]⟩
          · rcases hidx : pyIndexZero homeworks with e1 | homework
            · exact Or.inl ⟨newTs, e1,
                by simp only [one_cycle, hga, hcr, hcd, hhw, htr, if_pos, hidx],
                by simp only [cycle_try, hga, hcr, hcd, hhw, htr, if_pos, hidx]⟩
            · rcases hps : parse_status homework with e1 | message
              · exact Or.inl ⟨newTs, e1,
                  by simp only [one_cycle, hga, hcr, hcd, hhw, htr, if_pos, hidx, hps],
                  by simp only [cycle_try, hga, hcr, hcd, hhw, htr, if_pos, hidx, hps]⟩
              · exact Or.inr ⟨newTs, [message],
                  by simp only [one_cycle, hga, hcr, hcd, hhw, htr, if_pos, hidx, hps,
                    send_message_eq],
                  by simp only [cycle_try, hga, hcr, hcd, hhw, htr, if_pos, hidx, hps,
                    send_message_eq]⟩

/-- An iteration that logs an error also attempts a notification whose
text is exactly the failure text. -/
theorem one_cycle_error_notifies (env : CycleEnv) (ts : PyVal) (e : HwError)
    (h : (one_cycle env ts).errorLogged = some e) :
    (one_cycle env ts).sent = [error_text e] := by
  rcases one_cycle_cases env ts with ⟨ts2, e2, hc, _⟩ | ⟨newTs, msgs, hc, _⟩
  · rw [hc, handle_error_eq] at h ⊢
    injection h with h2
    rw [h2]
  · rw [hc] at h
    exact Option.noConfusion h

/-- C1: counterexample. In this concrete iteration the fetch and the
validation succeed and `parse_status` raises on the first homework
record, so the error-handling path is taken — yet the watermark moved
from `0` to the response's `current_date = 123`, because `main` runs
`timestamp = response['current_date']` before calling `parse_status`.
The claim that the watermark is left unchanged is false on the code. -/
theorem c1_counterexample :
    get_api_answer unknownStatusEnv.http (PyVal.int 0) = Except.ok unknownStatusResponse ∧
    check_response unknownStatusResponse = Except.ok () ∧
    parse_status unknownStatusRecord = Except.error unknownStatusError ∧
    (one_cycle unknownStatusEnv (PyVal.int 0)).errorLogged = some unknownStatusError ∧
    (one_cycle unknownStatusEnv (PyVal.int 0)).timestamp = PyVal.int 123 ∧
    PyVal.int 123 ≠ PyVal.int 0 := by
  refine ⟨rfl, rfl, rfl, rfl, rfl, ?_⟩
  intro h
  injection h with h2
  exact absurd h2 (by decide)

/-- C1 (amended): in every iteration where fetch and validation succeed
but the Status Formatter raises on the first homework record, the loop
takes the error-handling path (the error is logged and its text is sent
best-effort), but the watermark is not left unchanged: it has already
been advanced to the response's `current_date`, since the assignment
precedes formatting in the loop body. -/
theorem c1_formatter_failure_keeps_advanced_watermark :
    ∀ (env : CycleEnv) (ts response newTs homework : PyVal) (rest : List PyVal) (e : HwError),
      get_api_answer env.http ts = Except.ok response →
      check_response response = Except.ok () →
      pyGetItem response "current_date" = Except.ok newTs →
      pyGetItem response "homeworks" = Except.ok (PyVal.list (homework :: rest)) →
      parse_status homework = Except.error e →
      one_cycle env ts = { timestamp := newTs, sent := [error_text e], errorLogged := some e } := by
  intro env ts response newTs homework rest e h1 h2 h3 h4 h5
  simp only [one_cycle, h1, h2, h3, h4, pyTruthy, List.isEmpty_cons, Bool.not_false,
    if_pos, pyIndexZero, h5]
  exact handle_error_eq env newTs e

/-- C1 (amended) at the concrete counterexample input. -/
theorem c1_witness :
    one_cycle unknownStatusEnv (PyVal.int 0) =
      { timestamp := PyVal.int 123,
        sent := [error_text unknownStatusError],
        errorLogged := some unknownStatusError } :=
  c1_formatter_failure_keeps_advanced_watermark unknownStatusEnv (PyVal.int 0)
    unknownStatusResponse (PyVal.int 123) unknownStatusRecord [] unknownStatusError
    rfl rfl rfl rfl rfl

/-- C4: on the response
`{"homeworks":[{"homework_name":"X","status":"approved"}], "current_date": 123}`
one poll-loop iteration delivers exactly the message
`Изменился статус проверки работы "X". Работа проверена: ревьюеру всё понравилось. Ура!`
and the watermark after the iteration equals 123. -/
theorem c4_single_cycle_approved :
    one_cycle approvedEnv (PyVal.int 0) =
      { timestamp := PyVal.int 123,
        sent := ["Изменился статус проверки работы \x22X\x22. Работа проверена: ревьюеру всё понравилось. Ура!"],
        errorLogged := none } := rfl

/-- C6: one iteration on a well-formed response whose `homeworks` list
is empty advances the watermark to the response's `current_date` and
delivers no notification. -/
theorem c6_empty_homeworks_cycle :
    ∀ (env : CycleEnv) (ts : PyVal) (entries : List (String × PyVal)) (curdate : PyVal),
      get_api_answer env.http ts = Except.ok (PyVal.dict entries) →
      assocGet entries "homeworks" = some (PyVal.list []) →
      assocGet entries "current_date" = some curdate →
      one_cycle env ts = { timestamp := curdate, sent := [], errorLogged := none } := by
  intro env ts entries curdate h1 h2 h3
  simp only [one_cycle, h1, check_response, h2, h3, pyGetItem, pyTruthy,
    List.isEmpty_nil, Bool.not_true, if_neg, Bool.false_eq_true, not_false_iff]

/-- C6 at a concrete empty-homeworks response. -/
theorem c6_witness :
    one_cycle emptyEnv (PyVal.int 0) =
      { timestamp := PyVal.int 777, sent := [], errorLogged := none } :=
  c6_empty_homeworks_cycle emptyEnv (PyVal.int 0)
    [("homeworks", PyVal.list []), ("current_date", PyVal.int 777)] (PyVal.int 777)
    rfl rfl rfl

/-- C7: for every message text, `send_message` hands the text to the
bot's delivery call exactly once, and it never raises: the only failure
its delivery call produces is `telegram.TelegramError`, which it
catches and logs itself. -/
theorem c7_send_message_single_attempt_never_raises :
    ∀ (outcome : SendOutcome) (message : String),
      send_message outcome message = { attempts := [message], raised := Except.ok () } := by
  intro outcome message
  cases outcome <;> rfl

/-- C2: `check_response` raises `TypeError` on a non-dict input,
`KeyError` when `homeworks` or `current_date` is absent, `TypeError`
when the `homeworks` value is not a list, and otherwise returns with no
error; being a pure function of the response, it has no other effect. -/
theorem c2_check_response_contract :
    ∀ (response : PyVal),
      (isDict response = false →
        ∃ m, check_response response = Except.error (HwError.typeError m)) ∧
      (∀ entries, response = PyVal.dict entries →
        (assocGet entries "homeworks" = none ∨ assocGet entries "current_date" = none) →
        ∃ m, check_response response = Except.error (HwError.keyError m)) ∧
      (∀ entries hw, response = PyVal.dict entries →
        assocGet entries "homeworks" = some hw →
        (∃ c, assocGet entries "current_date" = some c) →
        isList hw = false →
        ∃ m, check_response response = Except.error (HwError.typeError m)) ∧
      (∀ entries l, response = PyVal.dict entries →
        assocGet entries "homeworks" = some (PyVal.list l) →
        (∃ c, assocGet entries "current_date" = some c) →
        check_response response = Except.ok ()) := by
  intro response
  refine ⟨?_, ?_, ?_, ?_⟩
  · intro hnd
    cases response with
    | int n => exact ⟨_, rfl⟩
    | str s => exact ⟨_, rfl⟩
    | bool b => exact ⟨_, rfl⟩
    | list l => exact ⟨_, rfl⟩
    | dict entries => simp [isDict] at hnd
    | pynone => exact ⟨_, rfl⟩
  · intro entries hresp hor
    subst hresp
    rcases hor with h | h
    · exact ⟨_, by simp only [check_response, h]; rfl⟩
    · rcases hhw : assocGet entries "homeworks" with _ | v
      · exact ⟨_, by simp only [check_response, hhw]; rfl⟩
      · exact ⟨_, by simp only [check_response, hhw, h]; rfl⟩
  · intro entries hw hresp hhw hex hnl
    obtain ⟨c, hc⟩ := hex
    subst hresp
    cases hw with
    | int n => exact ⟨_, by simp only [check_response, hhw, hc]; rfl⟩
    | str s => exact ⟨_, by simp only [check_response, hhw, hc]; rfl⟩
    | bool b => exact ⟨_, by simp only [check_response, hhw, hc]; rfl⟩
    | list l => simp [isList] at hnl
    | dict d => exact ⟨_, by simp only [check_response, hhw, hc]; rfl⟩
    | pynone => exact ⟨_, by simp only [check_response, hhw, hc]; rfl⟩
  · intro entries l hresp hhw hex
    obtain ⟨c, hc⟩ := hex
    subst hresp
    simp only [check_response, hhw, hc]

/-- C2 at concrete inputs: a non-dict body, a dict missing
`current_date`, a dict whose `homeworks` is not a list, and a
well-shaped body. -/
theorem c2_witness :
    (∃ m, check_response (PyVal.int 5) = Except.error (HwError.typeError m)) ∧
    (∃ m, check_response (PyVal.dict [("homeworks", PyVal.list [])]) =
      Except.error (HwError.keyError m)) ∧
    (∃ m, check_response (PyVal.dict [("homeworks", PyVal.int 1), ("current_date", PyVal.int 2)]) =
      Except.error (HwError.typeError m)) ∧
    check_response (PyVal.dict [("homeworks", PyVal.list []), ("current_date", PyVal.int 2)]) =
      Except.ok () := by
  refine ⟨?_, ?_, ?_, ?_⟩
  · exact (c2_check_response_contract (PyVal.int 5)).1 rfl
  · exact (c2_check_response_contract (PyVal.dict [("homeworks", PyVal.list [])])).2.1
      [("homeworks", PyVal.list [])] rfl (Or.inr rfl)
  · exact (c2_check_response_contract
      (PyVal.dict [("homeworks", PyVal.int 1), ("current_date", PyVal.int 2)])).2.2.1
      [("homeworks", PyVal.int 1), ("current_date", PyVal.int 2)] (PyVal.int 1)
      rfl rfl ⟨PyVal.int 2, rfl⟩ rfl
  · exact (c2_check_response_contract
      (PyVal.dict [("homeworks", PyVal.list []), ("current_date", PyVal.int 2)])).2.2.2
      [("homeworks", PyVal.list []), ("current_date", PyVal.int 2)] []
      rfl rfl ⟨PyVal.int 2, rfl⟩

/-- C3: a homework record (a dict with `homework_name` and `status`)
whose status string is outside `{approved, reviewing, rejected}` makes
`parse_status` raise `UnexpectedStatusError`; it never returns a
formatted message for such a record. -/
theorem c3_parse_status_rejects_unknown_status :
    ∀ (entries : List (String × PyVal)) (nameVal : PyVal) (s : String),
      assocGet entries "homework_name" = some nameVal →
      assocGet entries "status" = some (PyVal.str s) →
      s ≠ "approved" → s ≠ "reviewing" → s ≠ "rejected" →
      (∃ m, parse_status (PyVal.dict entries) =
        Except.error (HwError.unexpectedStatusError m)) ∧
      (∀ msg, parse_status (PyVal.dict entries) ≠ Except.ok msg) := by
  intro entries nameVal s hname hstatus h1 h2 h3
  have hv : verdictGet (PyVal.str s) = none := by
    simp [verdictGet, HOMEWORK_VERDICTS, assocGet, Ne.symm h1, Ne.symm h2, Ne.symm h3]
  refine ⟨?_, ?_⟩
  · exact ⟨_, by simp only [parse_status, hname, hstatus, hv]; rfl⟩
  · intro msg hok
    rw [parse_status] at hok
    simp only [hname, hstatus, hv] at hok
    exact Except.noConfusion hok

/-- C3 at the concrete record with status `unknown`. -/
theorem c3_witness :
    (∃ m, parse_status unknownStatusRecord =
      Except.error (HwError.unexpectedStatusError m)) ∧
    (∀ msg, parse_status unknownStatusRecord ≠ Except.ok msg) :=
  c3_parse_status_rejects_unknown_status
    [("homework_name", PyVal.str "X"), ("status", PyVal.str "unknown")]
    (PyVal.str "X") "unknown" rfl rfl
    (by decide) (by decide) (by decide)

/-- C5: `get_api_answer` raises `RequestError` when the GET request
raises at transport level; raises `WrongStatusCodeError` when the HTTP
status is not 200, in which case the cycle leaves the watermark
unchanged; raises `WrongResponseError` when the body does not decode as
JSON; and on success returns the decoded body as-is, unvalidated. -/
theorem c5_get_api_answer_contract :
    ∀ (http : PyVal → HttpResult) (ts : PyVal),
      (∀ s, http ts = HttpResult.exn s →
        ∃ m, get_api_answer http ts = Except.error (HwError.requestError m)) ∧
      (∀ r, http ts = HttpResult.resp r → r.status_code ≠ 200 →
        (∃ m, get_api_answer http ts = Except.error (HwError.wrongStatusCodeError m)) ∧
        (∀ send, (one_cycle { http := http, send := send } ts).timestamp = ts)) ∧
      (∀ r es, http ts = HttpResult.resp r → r.status_code = 200 →
        r.jsonResult = Except.error es →
        ∃ m, get_api_answer http ts = Except.error (HwError.wrongResponseError m)) ∧
      (∀ r body, http ts = HttpResult.resp r → r.status_code = 200 →
        r.jsonResult = Except.ok body →
        get_api_answer http ts = Except.ok body) := by
  intro http ts
  refine ⟨?_, ?_, ?_, ?_⟩
  · intro s h
    exact ⟨_, by simp only [get_api_answer, h]; rfl⟩
  · intro r h hne
    have hga : get_api_answer http ts = Except.error (HwError.wrongStatusCodeError
        ("Запрос к адресу: " ++ ENDPOINT ++ "."
          ++ "Метод запроса: GET."
          ++ "Статус ответа: " ++ toString r.status_code ++ ". "
          ++ "Ожидаемый код: 200")) := by
      simp only [get_api_answer, h, if_pos hne]
    refine ⟨⟨_, hga⟩, ?_⟩
    intro send
    simp only [one_cycle, hga, handle_error_eq]
  · intro r es h h200 hjson
    exact ⟨_, by
      simp only [get_api_answer, h]
      rw [if_neg (fun hne => hne h200)]
      simp only [hjson]; rfl⟩
  · intro r body h h200 hjson
    simp only [get_api_answer, h]
    rw [if_neg (fun hne => hne h200)]
    simp only [hjson]

/-- C5 at concrete inputs: a transport failure, a 503 response (with
the watermark kept), an undecodable 200 body, and a decodable 200
body. -/
theorem c5_witness :
    (∃ m, get_api_answer refusedEnv.http (PyVal.int 0) =
      Except.error (HwError.requestError m)) ∧
    (∃ m, get_api_answer unavailableHttp (PyVal.int 0) =
      Except.error (HwError.wrongStatusCodeError m)) ∧
    (one_cycle { http := unavailableHttp, send := fun _ => SendOutcome.delivered }
      (PyVal.int 0)).timestamp = PyVal.int 0 ∧
    (∃ m, get_api_answer
      (fun _ => HttpResult.resp
        { status_code := 200, jsonResult := Except.error "Expecting value", text := "#" })
      (PyVal.int 0) = Except.error (HwError.wrongResponseError m)) ∧
    get_api_answer
      (fun _ => HttpResult.resp
        { status_code := 200, jsonResult := Except.ok (PyVal.int 9), text := "9" })
      (PyVal.int 0) = Except.ok (PyVal.int 9) := by
  refine ⟨?_, ?_, ?_, ?_, ?_⟩
  · exact (c5_get_api_answer_contract refusedEnv.http (PyVal.int 0)).1 "connection refused" rfl
  · exact ((c5_get_api_answer_contract unavailableHttp (PyVal.int 0)).2.1
      { status_code := 503, jsonResult := Except.error "Expecting value", text := "Service Unavailable" }
      rfl (by decide)).1
  · exact ((c5_get_api_answer_contract unavailableHttp (PyVal.int 0)).2.1
      { status_code := 503, jsonResult := Except.error "Expecting value", text := "Service Unavailable" }
      rfl (by decide)).2 (fun _ => SendOutcome.delivered)
  · exact (c5_get_api_answer_contract _ (PyVal.int 0)).2.2.1
      { status_code := 200, jsonResult := Except.error "Expecting value", text := "#" }
      "Expecting value" rfl rfl rfl
  · exact (c5_get_api_answer_contract _ (PyVal.int 0)).2.2.2
      { status_code := 200, jsonResult := Except.ok (PyVal.int 9), text := "9" }
      (PyVal.int 9) rfl rfl rfl

/-- C8: at startup, when any of the three required configuration values
is absent, `check_tokens` logs one critical line and the process
terminates with exit status 1 (non-zero) before entering the loop; when
all three are present, `main` proceeds into the loop with the clock
reading as initial watermark. -/
theorem c8_startup_token_check :
    ∀ (env : Env) (now : Int),
      ((env.TELEGRAM_TOKEN = none ∨ env.PRACTICUM_TOKEN = none ∨ env.TELEGRAM_CHAT_ID = none) →
        (∃ logLine, main_startup env now = StartupResult.terminated 1 [logLine]) ∧
          (1 : Nat) ≠ 0) ∧
      ((env.TELEGRAM_TOKEN ≠ none ∧ env.PRACTICUM_TOKEN ≠ none ∧ env.TELEGRAM_CHAT_ID ≠ none) →
        main_startup env now = StartupResult.entersLoop (PyVal.int now)) := by
  intro env now
  obtain ⟨t, p, c⟩ := env
  cases t <;> cases p <;> cases c <;>
    refine ⟨fun h => ?_, fun hall => ?_⟩ <;>
      first
        | exact ⟨⟨_, rfl⟩, by decide⟩
        | rfl
        | (rcases h with h | h | h <;> exact Option.noConfusion h)
        | exact absurd rfl hall.1
        | exact absurd rfl hall.2.1
        | exact absurd rfl hall.2.2

/-- C8 at concrete configurations: one missing value terminates with
status 1, a complete configuration enters the loop. -/
theorem c8_witness :
    (∃ logLine, main_startup missingTokenEnv 42 = StartupResult.terminated 1 [logLine]) ∧
    main_startup fullTokenEnv 42 = StartupResult.entersLoop (PyVal.int 42) :=
  ⟨((c8_startup_token_check missingTokenEnv 42).1 (Or.inl rfl)).1,
   (c8_startup_token_check fullTokenEnv 42).2
     ⟨fun h => Option.noConfusion h, fun h => Option.noConfusion h, fun h => Option.noConfusion h⟩⟩

/-- C9: every error raised inside a poll iteration is caught by the
loop's `except Exception` clause: the cycle ends with exactly that error
logged and its text sent best-effort, and the loop then proceeds to the
sleep phase and the next iteration, whose watermark is the one the
finished cycle produced — no cycle error terminates the loop. -/
theorem c9_cycle_errors_caught :
    ∀ (env : CycleEnv) (ts : PyVal) (e : HwError),
      cycle_try env ts = Except.error e →
      (one_cycle env ts).errorLogged = some e ∧
      (one_cycle env ts).sent = [error_text e] ∧
      (∀ (envs : Nat → CycleEnv) (ts0 : PyVal) (n : Nat),
        run_loop envs ts0 (n + 1) = (one_cycle (envs n) (run_loop envs ts0 n)).timestamp) := by
  intro env ts e h
  rcases one_cycle_cases env ts with ⟨ts2, e2, hc, htry⟩ | ⟨newTs, msgs, hc, htry⟩
  · rw [htry] at h
    injection h with h2
    subst h2
    rw [hc, handle_error_eq]
    exact ⟨rfl, rfl, fun envs ts0 n => rfl⟩
  · rw [htry] at h
    exact Except.noConfusion h

/-- C9 at a concrete transport failure (connection refused): the
`RequestError` is caught and notified and the loop steps on. -/
theorem c9_witness :
    (one_cycle refusedEnv (PyVal.int 0)).errorLogged = some refusedError ∧
    (one_cycle refusedEnv (PyVal.int 0)).sent = [error_text refusedError] ∧
    run_loop refusedStream (PyVal.int 0) 1 =
      (one_cycle (refusedStream 0) (run_loop refusedStream (PyVal.int 0) 0)).timestamp :=
  ⟨(c9_cycle_errors_caught refusedEnv (PyVal.int 0) refusedError rfl).1,
   (c9_cycle_errors_caught refusedEnv (PyVal.int 0) refusedError rfl).2.1,
   (c9_cycle_errors_caught refusedEnv (PyVal.int 0) refusedError rfl).2.2
     refusedStream (PyVal.int 0) 0⟩

/-- C10: every iteration that takes the error-handling path attempts a
notification of the error text: `sent_msg` is re-created as the empty
string inside the `except` clause on each iteration, so even two
consecutive iterations failing with identical texts both send theirs —
no duplicate suppression survives across iterations. -/
theorem c10_error_path_always_notifies :
    ∀ (envs : Nat → CycleEnv) (ts0 : PyVal) (n : Nat) (e e2 : HwError),
      (one_cycle (envs n) (run_loop envs ts0 n)).errorLogged = some e →
      (one_cycle (envs (n + 1)) (run_loop envs ts0 (n + 1))).errorLogged = some e2 →
      (one_cycle (envs n) (run_loop envs ts0 n)).sent = [error_text e] ∧
      (one_cycle (envs (n + 1)) (run_loop envs ts0 (n + 1))).sent = [error_text e2] := by
  intro envs ts0 n e e2 h1 h2
  exact ⟨one_cycle_error_notifies _ _ _ h1, one_cycle_error_notifies _ _ _ h2⟩

/-- C10 at two consecutive transport-failing iterations with identical
error texts: both iterations send the text. -/
theorem c10_witness :
    (one_cycle (refusedStream 0) (run_loop refusedStream (PyVal.int 0) 0)).sent =
      [error_text refusedError] ∧
    (one_cycle (refusedStream 1) (run_loop refusedStream (PyVal.int 0) 1)).sent =
      [error_text refusedError] :=
  c10_error_path_always_notifies refusedStream (PyVal.int 0) 0 refusedError refusedError rfl rfl
